import Mathlib

/-!
Shallow embedding of the Sport rep-counter application: the exercise and
position-label enumerations (src/unnamed/part_001), the Gemini classifier
adapter (src/services/geminiService.ts), and the rep-counter state machine
of the App component (src/unnamed/part_000).  React `useState`/`useRef`
cells become fields of a `Session` record; each handler becomes a pure
state transformer; the asynchronous tick (the code of `analyzeFrame` that
runs after the classification promise resolves) becomes a function of the
session and the resolved label.
-/

namespace Sport

/-- `RepState` from src/unnamed/part_001: the three position labels. -/
inductive RepState where
  | UP
  | DOWN
  | NEUTRAL
  deriving DecidableEq, Repr

/-- `Exercise` enum from src/unnamed/part_001. -/
inductive Exercise where
  | Pushups
  | Squats
  | JumpingJacks
  deriving DecidableEq, Repr

/-- The Persian display value of each `Exercise` enum member. -/
def Exercise.label : Exercise → String
  | .Pushups => "شنا سوئدی"
  | .Squats => "اسکات"
  | .JumpingJacks => "پروانه"

/-- The raw text of a position label, as interpolated into feedback. -/
def RepState.text : RepState → String
  | .UP => "UP"
  | .DOWN => "DOWN"
  | .NEUTRAL => "NEUTRAL"

/-- JavaScript `String.prototype.trim` over the character sequence:
leading and trailing whitespace removed. -/
def jsTrim (s : String) : String :=
  String.mk
    (((s.data.dropWhile Char.isWhitespace).reverse.dropWhile
        Char.isWhitespace).reverse)

/-- JavaScript `String.prototype.toUpperCase` over the character
sequence: each character mapped to its upper-case form. -/
def jsToUpperCase (s : String) : String :=
  String.mk (s.data.map Char.toUpper)

namespace GeminiService

/-- `analyzeFrame` of src/services/geminiService.ts, lines 38-66.  The
network round-trip is abstracted as its outcome: `Except.error e` when the
request (or reading `response.text`) throws, `Except.ok raw` when it
yields raw response text.  The body trims and uppercases the text
(`response.text.trim().toUpperCase()`, line 53), returns it when it is
one of the three labels, and returns `NEUTRAL` otherwise; the surrounding
try/catch maps every thrown error to `NEUTRAL`. -/
def analyzeFrame (response : Except String String) : RepState :=
  match response with
  | Except.error _ => RepState.NEUTRAL
  | Except.ok raw =>
    let text := jsToUpperCase (jsTrim raw)
    if text = "UP" then RepState.UP
    else if text = "DOWN" then RepState.DOWN
    else if text = "NEUTRAL" then RepState.NEUTRAL
    else RepState.NEUTRAL

end GeminiService

/-- The mutable state of the App component (src/unnamed/part_000): the
`useState` cells `selectedExercise`, `repCount`, `isCounting`,
`feedbackMessage`, the `useRef` cells `lastPosition` and
`repStateCooldown`, and `intervalActive` modelling whether
`analysisIntervalRef` currently holds a scheduled interval. -/
structure Session where
  selectedExercise : Option Exercise
  repCount : Nat
  isCounting : Bool
  feedbackMessage : String
  lastPosition : RepState
  repStateCooldown : Bool
  intervalActive : Bool
  deriving DecidableEq, Repr

/-- The initial session of src/unnamed/part_000, lines 33-45. -/
def initialSession : Session :=
  { selectedExercise := none
  , repCount := 0
  , isCounting := false
  , feedbackMessage := "حرکت ورزشی را انتخاب کنید"
  , lastPosition := RepState.NEUTRAL
  , repStateCooldown := false
  , intervalActive := false }

namespace App

/-- Lines 93-106 of `analyzeFrame` (src/unnamed/part_000): the code that
runs once the classification promise has resolved to `label`.  Feedback is
set to the raw label; if the cooldown ref is set the function returns at
once (before the edge rule and before the `lastPosition` assignment);
otherwise a `DOWN` to `UP` edge increments the count, sets praise
feedback, and sets the cooldown ref; finally `lastPosition` is assigned
the label.  The 500 ms timeout that later clears the cooldown ref is the
separate step `cooldownTimeoutFires`. -/
def applyLabel (s : Session) (label : RepState) : Session :=
  let s1 := { s with feedbackMessage := label.text }
  if s1.repStateCooldown then s1
  else if s1.lastPosition = RepState.DOWN ∧ label = RepState.UP then
    { s1 with repCount := s1.repCount + 1
            , feedbackMessage := "عالی!"
            , repStateCooldown := true
            , lastPosition := label }
  else { s1 with lastPosition := label }

/-- The `setTimeout` callback of line 102-104: clears the cooldown ref. -/
def cooldownTimeoutFires (s : Session) : Session :=
  { s with repStateCooldown := false }

/-- `analyzeFrame` of src/unnamed/part_000, lines 75-108, as a function of
the resolved label.  The early return when no exercise is selected (line
76) leaves the state unchanged; otherwise feedback is set to the analysing
message before the await (line 91) and the resolved label is applied.  The
video/canvas/context guards likewise return with the state unchanged and
are subsumed by taking a tick to mean a tick whose sample was captured. -/
def analyzeFrame (s : Session) (label : RepState) : Session :=
  if s.selectedExercise.isNone then s
  else applyLabel { s with feedbackMessage := "در حال تحلیل..." } label

/-- `startCounting`, src/unnamed/part_000 lines 110-118. -/
def startCounting (s : Session) : Session :=
  match s.selectedExercise with
  | none => { s with feedbackMessage := "لطفا ابتدا یک حرکت ورزشی را انتخاب کنید!" }
  | some _ =>
    { s with isCounting := true
           , feedbackMessage := "آماده!"
           , intervalActive := true }

/-- `stopCounting`, src/unnamed/part_000 lines 120-126: clears the
interval and the counting flag, sets paused feedback. -/
def stopCounting (s : Session) : Session :=
  { s with isCounting := false
         , intervalActive := false
         , feedbackMessage := "متوقف شد. برای ادامه شروع را بزنید." }

/-- `resetCounter`, src/unnamed/part_000 lines 128-133: stop, zero the
count, reset `lastPosition`; the cooldown ref is not touched. -/
def resetCounter (s : Session) : Session :=
  let s1 := stopCounting s
  { s1 with repCount := 0
          , lastPosition := RepState.NEUTRAL
          , feedbackMessage :=
              if s1.selectedExercise.isSome then "شمارنده صفر شد"
              else "حرکت ورزشی را انتخاب کنید" }

/-- `handleSelectExercise`, src/unnamed/part_000 lines 135-139. -/
def handleSelectExercise (s : Session) (exercise : Exercise) : Session :=
  let s1 := resetCounter s
  { s1 with selectedExercise := some exercise
          , feedbackMessage :=
              "حرکت " ++ exercise.label ++ " انتخاب شد. برای شروع آماده‌اید؟" }

/-- A run of sample-processing ticks: fold `analyzeFrame` over labels. -/
def runTicks (s : Session) (labels : List RepState) : Session :=
  labels.foldl analyzeFrame s

end App

/-! ## Claims -/

/-- C1: on a sample-processing tick while running, `repCount` is
incremented by exactly 1 if and only if `lastPosition` entering the tick
was `DOWN`, the tick's label is `UP`, and the cooldown was inactive
entering the tick; otherwise `repCount` is unchanged. -/
theorem tick_edge_rule (s : Session) (label : RepState)
    (hrun : s.isCounting = true) (hsel : s.selectedExercise.isSome) :
    (App.analyzeFrame s label).repCount =
      if s.repStateCooldown = false ∧ s.lastPosition = RepState.DOWN ∧
          label = RepState.UP
      then s.repCount + 1 else s.repCount := by
  simp only [App.analyzeFrame, App.applyLabel, Option.isNone_iff_eq_none]
  rcases h : s.selectedExercise with _ | ex
  · simp [h] at hsel
  · simp only [h, reduceCtorEq, if_false]
    rcases hc : s.repStateCooldown with _ | _ <;>
      rcases hp : s.lastPosition <;> rcases label <;> simp_all

/-- Witness for `tick_edge_rule` at a concrete running session. -/
theorem tick_edge_rule_witness :
    (App.analyzeFrame
      { initialSession with selectedExercise := some Exercise.Squats
                          , isCounting := true
                          , lastPosition := RepState.DOWN } RepState.UP).repCount =
      if (false : Bool) = false ∧ RepState.DOWN = RepState.DOWN ∧
          RepState.UP = RepState.UP
      then 0 + 1 else 0 :=
  tick_edge_rule
    { initialSession with selectedExercise := some Exercise.Squats
                        , isCounting := true
                        , lastPosition := RepState.DOWN }
    RepState.UP rfl rfl

/-- C2 counterexample: on a tick with the cooldown active, `lastPosition`
is NOT updated to the tick's label — the claim fails at a concrete session
whose cooldown is set: entering with `lastPosition = DOWN` and label `UP`,
the tick leaves `lastPosition` at `DOWN`. -/
theorem cooldown_tick_keeps_position_counterexample :
    ¬ ((App.analyzeFrame
        { initialSession with selectedExercise := some Exercise.Pushups
                            , isCounting := true
                            , repStateCooldown := true
                            , lastPosition := RepState.DOWN }
        RepState.UP).lastPosition = RepState.UP) := by
  decide

/-- C2 amended: on a tick with the cooldown active entering the tick, the
code returns immediately after publishing the raw label as feedback, so
`lastPosition`, `repCount` and the cooldown flag are all left unchanged —
cooldown suppresses position tracking as well as counting. -/
theorem cooldown_tick_state (s : Session) (label : RepState)
    (hsel : s.selectedExercise.isSome) (hcd : s.repStateCooldown = true) :
    (App.analyzeFrame s label).lastPosition = s.lastPosition ∧
    (App.analyzeFrame s label).repCount = s.repCount ∧
    (App.analyzeFrame s label).repStateCooldown = true := by
  simp only [App.analyzeFrame, App.applyLabel, Option.isNone_iff_eq_none]
  rcases h : s.selectedExercise with _ | ex
  · simp [h] at hsel
  · simp [hcd]

/-- Witness for `cooldown_tick_state` at a concrete session. -/
theorem cooldown_tick_state_witness :
    (App.analyzeFrame
      { initialSession with selectedExercise := some Exercise.Pushups
                          , repStateCooldown := true
                          , lastPosition := RepState.DOWN }
      RepState.UP).lastPosition = RepState.DOWN ∧
    (App.analyzeFrame
      { initialSession with selectedExercise := some Exercise.Pushups
                          , repStateCooldown := true
                          , lastPosition := RepState.DOWN }
      RepState.UP).repCount = 0 ∧
    (App.analyzeFrame
      { initialSession with selectedExercise := some Exercise.Pushups
                          , repStateCooldown := true
                          , lastPosition := RepState.DOWN }
      RepState.UP).repStateCooldown = true :=
  cooldown_tick_state
    { initialSession with selectedExercise := some Exercise.Pushups
                        , repStateCooldown := true
                        , lastPosition := RepState.DOWN }
    RepState.UP rfl rfl

/-- C3 counterexample: `resetCounter` does not clear the cooldown flag —
resetting a session whose cooldown is active leaves `cooldownActive`
true, refuting the claim that it is false after every reset. -/
theorem reset_clears_all_counterexample :
    ¬ ((App.resetCounter
        { initialSession with selectedExercise := some Exercise.Squats
                            , repCount := 3
                            , repStateCooldown := true }).repStateCooldown = false) := by
  decide

/-- C3 amended: after `resetCounter`, `repCount = 0` and
`lastPosition = NEUTRAL` regardless of prior state, and sampling is
stopped; but the cooldown flag is left exactly as it was (it is cleared
only by the still-pending 500 ms timeout, not by reset). -/
theorem reset_state (s : Session) :
    (App.resetCounter s).repCount = 0 ∧
    (App.resetCounter s).lastPosition = RepState.NEUTRAL ∧
    (App.resetCounter s).repStateCooldown = s.repStateCooldown ∧
    (App.resetCounter s).isCounting = false ∧
    (App.resetCounter s).intervalActive = false := by
  simp [App.resetCounter, App.stopCounting]

/-- C4 counterexample: `handleSelectExercise` does not clear the cooldown
flag — selecting an exercise while the cooldown is active leaves it
active, refuting the "clears the cooldown flag" part of the claim. -/
theorem select_exercise_clears_all_counterexample :
    ¬ ((App.handleSelectExercise
        { initialSession with selectedExercise := some Exercise.Squats
                            , repCount := 2
                            , repStateCooldown := true }
        Exercise.Pushups).repStateCooldown = false) := by
  decide

/-- C4 amended: `handleSelectExercise kind` stops sampling, zeroes
`repCount` (in particular from any positive count), resets `lastPosition`
to `NEUTRAL`, and sets the selection to `kind`; the cooldown flag,
however, is left exactly as it was (only the pending timeout clears it). -/
theorem select_exercise_state (s : Session) (kind : Exercise) :
    (App.handleSelectExercise s kind).repCount = 0 ∧
    (App.handleSelectExercise s kind).lastPosition = RepState.NEUTRAL ∧
    (App.handleSelectExercise s kind).isCounting = false ∧
    (App.handleSelectExercise s kind).intervalActive = false ∧
    (App.handleSelectExercise s kind).selectedExercise = some kind ∧
    (App.handleSelectExercise s kind).repStateCooldown = s.repStateCooldown := by
  simp [App.handleSelectExercise, App.resetCounter, App.stopCounting]

/-- C5: the classifier adapter is total on every outcome of the request —
it maps each outcome to exactly one of the three labels, maps every thrown
error to `NEUTRAL`, and maps every response whose trimmed, uppercased text
is none of the three labels to `NEUTRAL`. -/
theorem classifier_failure_safety (response : Except String String) :
    (GeminiService.analyzeFrame response = RepState.UP ∨
     GeminiService.analyzeFrame response = RepState.DOWN ∨
     GeminiService.analyzeFrame response = RepState.NEUTRAL) ∧
    (∀ e, response = Except.error e →
      GeminiService.analyzeFrame response = RepState.NEUTRAL) ∧
    (∀ raw, response = Except.ok raw →
      jsToUpperCase (jsTrim raw) ≠ "UP" →
      jsToUpperCase (jsTrim raw) ≠ "DOWN" →
      jsToUpperCase (jsTrim raw) ≠ "NEUTRAL" →
      GeminiService.analyzeFrame response = RepState.NEUTRAL) := by
  rcases response with e | raw
  · exact ⟨Or.inr (Or.inr rfl), fun _ _ => rfl, fun raw h => nomatch h⟩
  · refine ⟨?_, ?_, ?_⟩
    · simp only [GeminiService.analyzeFrame]
      split_ifs <;> simp
    · intro e h
      cases h
    · intro raw' h h1 h2 h3
      cases h
      simp [GeminiService.analyzeFrame, h1, h2, h3]

/-- Witness for `classifier_failure_safety` at a concrete failing
request and a concrete garbage response. -/
theorem classifier_failure_safety_witness :
    GeminiService.analyzeFrame (Except.error "network down") =
      RepState.NEUTRAL ∧
    GeminiService.analyzeFrame (Except.ok "maybe up?") = RepState.NEUTRAL :=
  ⟨(classifier_failure_safety (Except.error "network down")).2.1
      "network down" rfl,
   (classifier_failure_safety (Except.ok "maybe up?")).2.2
      "maybe up?" rfl (by decide) (by decide) (by decide)⟩

/-- C6: `startCounting` with no exercise selected changes only the
feedback text: the counting flag, the interval, the count, the last
position, the cooldown and the selection are all unchanged, so with
`isCounting = false` entering it stays false and no loop is scheduled. -/
theorem start_without_selection_noop (s : Session)
    (hsel : s.selectedExercise = none) :
    (App.startCounting s).isCounting = s.isCounting ∧
    (App.startCounting s).intervalActive = s.intervalActive ∧
    (App.startCounting s).repCount = s.repCount ∧
    (App.startCounting s).lastPosition = s.lastPosition ∧
    (App.startCounting s).repStateCooldown = s.repStateCooldown ∧
    (App.startCounting s).selectedExercise = s.selectedExercise ∧
    (App.startCounting s).feedbackMessage =
      "لطفا ابتدا یک حرکت ورزشی را انتخاب کنید!" := by
  simp [App.startCounting, hsel]

/-- Witness for `start_without_selection_noop` at the initial session. -/
theorem start_without_selection_noop_witness :
    (App.startCounting initialSession).isCounting =
      initialSession.isCounting ∧
    (App.startCounting initialSession).intervalActive =
      initialSession.intervalActive ∧
    (App.startCounting initialSession).repCount =
      initialSession.repCount ∧
    (App.startCounting initialSession).lastPosition =
      initialSession.lastPosition ∧
    (App.startCounting initialSession).repStateCooldown =
      initialSession.repStateCooldown ∧
    (App.startCounting initialSession).selectedExercise =
      initialSession.selectedExercise ∧
    (App.startCounting initialSession).feedbackMessage =
      "لطفا ابتدا یک حرکت ورزشی را انتخاب کنید!" :=
  start_without_selection_noop initialSession rfl

/-- Each single tick leaves `repCount` unchanged or increments it by 1. -/
theorem tick_repCount_step (s : Session) (label : RepState) :
    (App.analyzeFrame s label).repCount = s.repCount ∨
    (App.analyzeFrame s label).repCount = s.repCount + 1 := by
  simp only [App.analyzeFrame, App.applyLabel]
  split_ifs <;> simp

/-- C7: over any sequence of sample-processing ticks (no reset, no
selection in between), `repCount` is non-decreasing: each tick either
leaves it unchanged or increments it by 1, and a run of ticks never ends
with a smaller count than it started with. -/
theorem repCount_monotone (s : Session) (labels : List RepState) :
    s.repCount ≤ (App.runTicks s labels).repCount ∧
    (∀ t label, (App.analyzeFrame t label).repCount = t.repCount ∨
      (App.analyzeFrame t label).repCount = t.repCount + 1) := by
  refine ⟨?_, tick_repCount_step⟩
  induction labels generalizing s with
  | nil => exact Nat.le_refl _
  | cons label rest ih =>
    refine Nat.le_trans ?_ (ih (App.analyzeFrame s label))
    rcases tick_repCount_step s label with h | h <;> omega

/-- C8: the code at the failing input of the stale-result scenario.  After
`stopCounting` the interval is indeed cancelled, but the in-flight
classification that then resolves to `UP` on a session stopped with
`lastPosition = DOWN` still runs the edge rule: it increments `repCount`
from 0 to 1 and moves `lastPosition` to `UP`, because `analyzeFrame`
never consults `isCounting` before mutating state. -/
theorem stale_result_mutates_after_stop :
    (App.stopCounting
      { initialSession with selectedExercise := some Exercise.Pushups
                          , isCounting := true
                          , intervalActive := true
                          , lastPosition := RepState.DOWN }).intervalActive
        = false ∧
    (App.stopCounting
      { initialSession with selectedExercise := some Exercise.Pushups
                          , isCounting := true
                          , intervalActive := true
                          , lastPosition := RepState.DOWN }).isCounting
        = false ∧
    (App.analyzeFrame
      (App.stopCounting
        { initialSession with selectedExercise := some Exercise.Pushups
                            , isCounting := true
                            , intervalActive := true
                            , lastPosition := RepState.DOWN })
      RepState.UP).repCount = 1 ∧
    (App.analyzeFrame
      (App.stopCounting
        { initialSession with selectedExercise := some Exercise.Pushups
                            , isCounting := true
                            , intervalActive := true
                            , lastPosition := RepState.DOWN })
      RepState.UP).lastPosition = RepState.UP := by
  decide

/-- C9: `resetCounter` leaves the exercise selection unchanged, whatever
the prior state is (only `handleSelectExercise` changes the selection). -/
theorem reset_preserves_selection (s : Session) :
    (App.resetCounter s).selectedExercise = s.selectedExercise := by
  simp [App.resetCounter, App.stopCounting]

/-- C10: the adapter normalizes the raw model text by trimming whitespace
and uppercasing before matching: any response whose trimmed, uppercased
text is `UP`, `DOWN` or `NEUTRAL` yields that label, any other text
yields `NEUTRAL`; in particular a raw response of a padded lowercase
word such as the padded lowercase up, or plain lowercase down, matches. -/
theorem classifier_normalizes_text (raw : String) :
    (jsToUpperCase (jsTrim raw) = "UP" →
      GeminiService.analyzeFrame (Except.ok raw) = RepState.UP) ∧
    (jsToUpperCase (jsTrim raw) = "DOWN" →
      GeminiService.analyzeFrame (Except.ok raw) = RepState.DOWN) ∧
    (jsToUpperCase (jsTrim raw) = "NEUTRAL" →
      GeminiService.analyzeFrame (Except.ok raw) = RepState.NEUTRAL) ∧
    (jsToUpperCase (jsTrim raw) ≠ "UP" →
      jsToUpperCase (jsTrim raw) ≠ "DOWN" →
      jsToUpperCase (jsTrim raw) ≠ "NEUTRAL" →
      GeminiService.analyzeFrame (Except.ok raw) = RepState.NEUTRAL) := by
  refine ⟨?_, ?_, ?_, ?_⟩ <;> intro h <;>
    simp [GeminiService.analyzeFrame, h]
  intro h2 h3
  simp [h2, h3]

/-- Witness for `classifier_normalizes_text`: the padded lowercase
response resolves to `UP` and the plain lowercase response to `DOWN`. -/
theorem classifier_normalizes_text_witness :
    GeminiService.analyzeFrame (Except.ok " up ") = RepState.UP ∧
    GeminiService.analyzeFrame (Except.ok "down") = RepState.DOWN :=
  ⟨(classifier_normalizes_text " up ").1 (by decide),
   (classifier_normalizes_text "down").2.1 (by decide)⟩

end Sport
